import Mathlib

/-!
Verification of the FAT-style filesystem emulator (allocation_table.py,
operations.py) against its natural-language specification.

The Python sources are shallowly embedded: Python `bytes` and ASCII `str`
values become `List Nat` (one natural per byte / code point), the backing
store file becomes a `List Nat` of bytes with seek/write semantics that
zero-fill when writing past the end of file, and each method of
`FileSystemOperations` becomes a pure function threading the in-memory
FAT, the root-directory array, and the disk explicitly.  Loops that the
source runs without a termination guarantee (the chain walk in
`read_file`, the freeing loop in `free_fat_blocks`) are embedded with an
explicit fuel parameter whose exhaustion is reported as a distinguished
outcome, so non-termination of the source is provable as "out of fuel at
every fuel value".
-/

namespace FatFs

/-! ## Constants (operations.py lines 6-17, allocation_table.py lines 2-4) -/

def BLOCK_SIZE : Nat := 1024
def TOTAL_BLOCKS : Nat := 2048
def FAT_BLOCKS : Nat := 4
def ROOT_BLOCKS : Nat := 1
def ROOT_ENTRIES : Nat := 32

def FAT_FREE : Nat := 0x0000
def FAT_EOF : Nat := 0x7FFF
def FAT_RESERVED : Nat := 0x7FFE

def DIR_EMPTY : Nat := 0x00
def DIR_FILE : Nat := 0x01
def DIR_DIRECTORY : Nat := 0x02

/-! ## Python byte/string helpers

ASCII strings are modelled as lists of byte values.  `pyStrip` is
the Python method `str.strip()` (removes leading/trailing whitespace; NUL bytes
are not whitespace), `rstripNull` is `str.rstrip(chr 0)`, `ljust25`
is `s.ljust(25)` padding with spaces (byte 32). -/

def isPySpace (b : Nat) : Bool :=
  b == 32 || b == 9 || b == 10 || b == 11 || b == 12 || b == 13

def pyStrip (s : List Nat) : List Nat :=
  ((s.dropWhile isPySpace).reverse.dropWhile isPySpace).reverse

def rstripNull (s : List Nat) : List Nat :=
  (s.reverse.dropWhile (· == 0)).reverse

def ljust25 (s : List Nat) : List Nat :=
  s ++ List.replicate (25 - s.length) 32

/-- Model of `filename.ljust(25)[:25]`, applied by the DirectoryEntry constructor
(operations.py line 22). -/
def constructorName (s : List Nat) : List Nat :=
  (ljust25 s).take 25

/-- Little-endian 16-bit encoding (struct format H, x86 native order). -/
def le16 (n : Nat) : List Nat := [n % 256, n / 256 % 256]

/-- Little-endian 32-bit encoding (struct format I, x86 native order). -/
def le32 (n : Nat) : List Nat :=
  [n % 256, n / 256 % 256, n / 65536 % 256, n / 16777216 % 256]

/-- Little-endian integer decoding, as in int.from_bytes with byte order little. -/
def readLE (l : List Nat) : Nat :=
  l.foldr (fun b acc => b + 256 * acc) 0

/-- struct format 25s: truncate or NUL-pad the byte string to 25 bytes. -/
def pack25 (s : List Nat) : List Nat :=
  (s ++ List.replicate 25 0).take 25

/-! ## DirectoryEntry (operations.py lines 19-38) -/

structure DirectoryEntry where
  filename : List Nat
  attributes : Nat
  first_block : Nat
  size : Nat
deriving DecidableEq

/-- The source constructor: pads/truncates the name to 25 characters. -/
def DirectoryEntry.make (name : List Nat) (attr fb sz : Nat) : DirectoryEntry :=
  ⟨constructorName name, attr, fb, sz⟩

/-- Model of `DirectoryEntry()` with all defaults (empty name padded to 25 spaces). -/
def emptyEntry : DirectoryEntry := DirectoryEntry.make [] DIR_EMPTY 0 0

/-- Model of `struct.pack("25sBHI", ...)`: 25-byte name, 1-byte attributes,
2-byte little-endian first block, 4-byte little-endian size. -/
def DirectoryEntry.toBytes (e : DirectoryEntry) : List Nat :=
  pack25 e.filename ++ [e.attributes % 256] ++ le16 e.first_block ++ le32 e.size

/-- Model of `DirectoryEntry.from_bytes` (operations.py lines 31-38).  `data[25]`
raises IndexError when the record is shorter than 26 bytes, modelled as
`none`.  The decoded name is passed through the constructor, which pads
it back to 25 characters with spaces. -/
def DirectoryEntry.fromBytes (data : List Nat) : Option DirectoryEntry :=
  match data.get? 25 with
  | none => none
  | some attr =>
      some (DirectoryEntry.make (rstripNull (data.take 25)) attr
        (readLE ((data.drop 26).take 2)) (readLE ((data.drop 28).take 4)))

/-! ## Allocation table (allocation_table.py) -/

/-- Model of `find_free_block`: linear scan for the first FREE entry, mirroring
`for i, entry in enumerate(self.fat)`; `none` models the -1 return. -/
def findFreeBlockGo : Nat → List Nat → Option Nat
  | _, [] => none
  | i, v :: rest => if v = FAT_FREE then some i else findFreeBlockGo (i + 1) rest

def findFreeBlock (fat : List Nat) : Option Nat := findFreeBlockGo 0 fat

/-- Model of `FileAllocationTable.to_bytes`: ONE byte per entry, `entry & 0xFF`. -/
def fatToBytes (fat : List Nat) : List Nat := fat.map (· % 256)

/-- Model of `FileAllocationTable.from_bytes`: one entry per byte of the input. -/
def fatFromBytes (data : List Nat) : List Nat := data

/-- The in-memory table produced by `FileAllocationTable()` followed by
`initialize()`: 2048 FREE entries with the first 4 set to RESERVED. -/
def initFat : List Nat :=
  ((((List.replicate 2048 FAT_FREE).set 0 FAT_RESERVED).set 1 FAT_RESERVED).set 2
      FAT_RESERVED).set 3 FAT_RESERVED

/-! ## Backing store (the `filesystem.dat` byte contents) -/

/-- Model of `f.seek(pos); f.read(n)`: returns at most `n` bytes, fewer at EOF. -/
def diskRead (disk : List Nat) (pos n : Nat) : List Nat :=
  (disk.drop pos).take n

/-- Overwrite the front of `disk` with `data`, extending the file when
the data runs past its end. -/
def overwriteFrom : List Nat → List Nat → List Nat
  | disk, [] => disk
  | [], d :: data => d :: overwriteFrom [] data
  | _ :: disk, d :: data => d :: overwriteFrom disk data

/-- Model of `f.seek(pos); f.write(data)` on a file opened r+b: keeps the first
`pos` bytes (zero-filling when seeking past the end of the file), then
overwrites with `data`, keeping whatever tail remains beyond it. -/
def diskWrite : List Nat → Nat → List Nat → List Nat
  | disk, 0, data => overwriteFrom disk data
  | [], pos + 1, data => 0 :: diskWrite [] pos data
  | b :: disk, pos + 1, data => b :: diskWrite disk pos data

/-- Test "n < l.length" by iteration (used where the source asks
"index < len(lst)"; the lemma lenGT_iff in the theorem section below
certifies the equivalence). -/
def lenGT : List Nat → Nat → Bool
  | [], _ => false
  | _ :: _, 0 => true
  | _ :: l, n + 1 => lenGT l n

/-- Test "n ≤ l.length" by iteration (models "len(lst) < n" checks). -/
def lenGE (l : List Nat) : Nat → Bool
  | 0 => true
  | n + 1 => lenGT l n

/-! ## Path handling

Paths are ASCII byte lists; 47 is the slash.  `pyStripSlash` is
the Python expression `path.strip("/")`, `splitSlash` is `s.split("/")` (which on an
empty string yields one empty segment), `joinSlash` is
`"/".join(parts)`. -/

def pyStripSlash (s : List Nat) : List Nat :=
  ((s.dropWhile (· == 47)).reverse.dropWhile (· == 47)).reverse

def splitSlash : List Nat → List (List Nat)
  | [] => [[]]
  | b :: rest =>
      let r := splitSlash rest
      if b = 47 then [] :: r
      else
        match r with
        | s :: ss => (b :: s) :: ss
        | [] => [[b]]

def joinSlash (parts : List (List Nat)) : List Nat :=
  List.intercalate [47] parts

/-- Model of `parse_path` (operations.py lines 312-319).  For a one-segment path
it returns the root path "/"; for a nested path it returns the parent
path WITHOUT a leading slash (the source joins `parts[:-1]` only). -/
def parsePath (path : List Nat) : Except String (List Nat × List Nat) :=
  if path.head? ≠ some 47 then .error "Caminho inválido. Deve começar com barra."
  else
    let parts := splitSlash (pyStripSlash path)
    if parts.length = 1 then .ok ([47], parts.headD [])
    else .ok (joinSlash parts.dropLast, parts.getLastD [])

/-! ## Directory loading and navigation (operations.py lines 393-432) -/

/-- Model of `_load_directory`: reads one block and decodes 32 records; a record
slice shorter than 26 bytes raises IndexError inside `from_bytes`. -/
def loadDirectory (disk : List Nat) (blockNumber : Nat) :
    Except String (List DirectoryEntry) :=
  let data := diskRead disk (blockNumber * BLOCK_SIZE) BLOCK_SIZE
  match (List.range ROOT_ENTRIES).mapM
      (fun i => DirectoryEntry.fromBytes ((data.drop (i * 32)).take 32)) with
  | some entries => .ok entries
  | none => .error "IndexError em DirectoryEntry.from_bytes"

/-- Model of `load_filesystem` (operations.py lines 434-453): reads the first
`FAT_BLOCKS * BLOCK_SIZE` bytes as the FAT (one entry per byte), checks
its length, then decodes the root directory from the following
`ROOT_BLOCKS * BLOCK_SIZE` bytes. -/
def loadFS (disk : List Nat) : Except String (List Nat × List DirectoryEntry) :=
  let fat := fatFromBytes (diskRead disk 0 (FAT_BLOCKS * BLOCK_SIZE))
  if ¬ lenGE fat TOTAL_BLOCKS then .error "FAT carregada incorretamente."
  else
    let rootData := diskRead disk (FAT_BLOCKS * BLOCK_SIZE) (ROOT_BLOCKS * BLOCK_SIZE)
    match (List.range ROOT_ENTRIES).mapM
        (fun i => DirectoryEntry.fromBytes ((rootData.drop (i * 32)).take 32)) with
    | some root => .ok (fat, root)
    | none => .error "IndexError ao carregar o diretório raiz"

/-- The inner scan of `navigate_to_directory`: first entry whose
stripped name matches the segment and whose type is DIRECTORY. -/
def findDirSegment (dir : List DirectoryEntry) (seg : List Nat) :
    Option DirectoryEntry :=
  dir.find? (fun e => pyStrip e.filename == seg && e.attributes == DIR_DIRECTORY)

def navigateSegs (disk : List Nat) :
    List (List Nat) → List DirectoryEntry → Option Nat →
    Except String (List DirectoryEntry × Option Nat)
  | [], cur, pb => .ok (cur, pb)
  | seg :: rest, cur, _ =>
      match findDirSegment cur seg with
      | none => .error "Diretório não encontrado."
      | some e =>
          match loadDirectory disk e.first_block with
          | .error er => .error er
          | .ok next => navigateSegs disk rest next (some e.first_block)

/-- Model of `navigate_to_directory` (operations.py lines 393-412): the root path
"/" resolves to the in-memory root with no parent block; otherwise the
path is split and walked one segment at a time, recording the matched
first block of the matched entry as the parent block. -/
def navigateToDirectory (disk : List Nat) (root : List DirectoryEntry)
    (path : List Nat) : Except String (List DirectoryEntry × Option Nat) :=
  if path = [47] then .ok (root, none)
  else navigateSegs disk (splitSlash (pyStripSlash path)) root none

/-- Model of `find_dir_entry` (operations.py lines 321-326), returning the index
of the matched entry (the source returns an aliased reference that the
caller mutates; an index plus `List.set` models that). -/
def findDirEntryIdx (name : List Nat) : Nat → List DirectoryEntry → Option Nat
  | _, [] => none
  | i, e :: rest =>
      if pyStrip e.filename = name ∧ e.attributes ≠ DIR_EMPTY then some i
      else findDirEntryIdx name (i + 1) rest

/-! ## Freeing a chain (operations.py lines 336-351)

The `while` loop of `free_fat_blocks` is embedded with a gas list, one
iteration allowed per element; `none` means the gas ran out.  The loop
provably cannot exhaust it: every continuing iteration zeroes a
previously non-zero entry, so one more iteration than the table has
entries always suffices, and the top-level wrapper passes exactly that
(`0 :: fat`). -/

def freeLoop : List Nat → List Nat → Nat → Option (Except String (List Nat))
  | [], _, _ => none
  | _ :: gas, fat, cur =>
      if cur = FAT_EOF then some (.ok fat)
      else if lenGT fat cur then
        let next := fat.getD cur 0
        let fat' := fat.set cur FAT_FREE
        if next = FAT_FREE ∨ next = FAT_EOF then some (.ok fat')
        else freeLoop gas fat' next
      else some (.error "Bloco inválido encontrado na FAT")

def freeFatBlocks (fat : List Nat) (firstBlock : Nat) : Except String (List Nat) :=
  if lenGT fat firstBlock then
    match freeLoop (0 :: fat) fat firstBlock with
    | some r => r
    | none => .error "gás esgotado"
  else .error "Bloco inicial inválido"

/-- Model of `remove_dir_entry` (operations.py lines 353-361): marks the first
entry with a matching stripped name as EMPTY, zeroing first block and
size but LEAVING THE FILENAME in place. -/
def removeDirEntryGo (name : List Nat) : List DirectoryEntry → List DirectoryEntry
  | [] => []
  | e :: rest =>
      if pyStrip e.filename = name then
        { e with attributes := DIR_EMPTY, first_block := 0, size := 0 } :: rest
      else e :: removeDirEntryGo name rest

def removeDirEntry (dir : List DirectoryEntry) (name : List Nat) :
    List DirectoryEntry :=
  removeDirEntryGo name dir

/-! ## Persisting (operations.py lines 363-373 and 427-432) -/

/-- Model of `persist_changes`: rewrites the serialized FAT at offset 0 (as many
bytes as the in-memory table has entries) and the root directory at
byte offset `FAT_BLOCKS * BLOCK_SIZE`. -/
def persistChanges (disk : List Nat) (fat : List Nat)
    (root : List DirectoryEntry) : List Nat :=
  let d1 := diskWrite disk 0 (fatToBytes fat)
  diskWrite d1 (FAT_BLOCKS * BLOCK_SIZE) ((root.map DirectoryEntry.toBytes).flatten)

/-- Model of `_persist_directory`: writes the 32 serialized records of one directory
at the given block.  The allocation table is NOT written. -/
def persistDirectory (disk : List Nat) (dir : List DirectoryEntry)
    (blockNumber : Nat) : List Nat :=
  diskWrite disk (blockNumber * BLOCK_SIZE) ((dir.map DirectoryEntry.toBytes).flatten)

/-! ## Engine state

Every public operation of `FileSystemOperations` starts by reloading the
FAT and root directory from the backing store, so an operation is a
function of the disk alone; on success it returns the in-memory FAT and
root at return time together with the new disk contents. -/

structure FSState where
  fat : List Nat
  root : List DirectoryEntry
  disk : List Nat
deriving DecidableEq

instance {ε α : Type} [DecidableEq ε] [DecidableEq α] : DecidableEq (Except ε α) :=
  fun x y =>
    match x, y with
    | .ok a, .ok b =>
        if h : a = b then isTrue (by rw [h]) else isFalse (by simp [h])
    | .error a, .error b =>
        if h : a = b then isTrue (by rw [h]) else isFalse (by simp [h])
    | .ok _, .error _ => isFalse (by simp)
    | .error _, .ok _ => isFalse (by simp)

/-! ## write_string (operations.py lines 212-273) -/

/-- The allocation loop (lines 243-248): `find_free_block` is queried
once per needed block ON THE UNMODIFIED TABLE - nothing marks a block
between queries - and the results are collected; any `-1` raises the
out-of-space RuntimeError. -/
def allocateBlocks (fat : List Nat) : Nat → Option (List Nat)
  | 0 => some []
  | n + 1 =>
      match findFreeBlock fat with
      | none => none
      | some b =>
          match allocateBlocks fat n with
          | some rest => some (b :: rest)
          | none => none

/-- The linking loop (lines 251-252): `fat[a[i]] = a[i+1]` for each
consecutive pair.  The indices stem from `find_free_block`, hence are
within bounds, so `List.set` matches the Python assignment. -/
def linkPairs (fat : List Nat) : List Nat → List Nat
  | a :: b :: rest => linkPairs (fat.set a b) (b :: rest)
  | _ => fat

/-- Lines 251-253: link consecutive pairs then mark the last allocated
block EOF.  `allocated_blocks[-1]` raises IndexError on an empty list
(content of zero bytes), modelled as `none`. -/
def linkBlocks (fat : List Nat) (blocks : List Nat) : Option (List Nat) :=
  match blocks.getLast? with
  | none => none
  | some last => some ((linkPairs fat blocks).set last FAT_EOF)

/-- The data-writing loop (lines 260-265): chunk `i` of the content is
written at byte offset `block_i * BLOCK_SIZE`. -/
def writeBlocksGo (content : List Nat) : Nat → List Nat → List Nat → List Nat
  | _, disk, [] => disk
  | i, disk, b :: rest =>
      writeBlocksGo content (i + 1)
        (diskWrite disk (b * BLOCK_SIZE)
          ((content.drop (i * BLOCK_SIZE)).take BLOCK_SIZE)) rest

def writeBlocks (disk : List Nat) (blocks : List Nat) (content : List Nat) :
    List Nat :=
  writeBlocksGo content 0 disk blocks

/-- Model of `(string * rep)`: the content repeated `rep` times. -/
def pyRepeat (s : List Nat) (rep : Nat) : List Nat :=
  (List.replicate rep s).flatten

/-- Error message of the allocation-failure RuntimeError. -/
def oosMsg : String := "Não há blocos livres disponíveis."

/-- The part of `write_string` that runs after `load_filesystem` has
populated the in-memory FAT and root (lines 224-273).  A raised
exception is modelled as `.error` carrying the message together with
the in-memory FAT and the navigated directory array at raise time (the
Python object keeps those fields). -/
def writeStringLoaded (string : List Nat) (rep : Nat) (path : List Nat)
    (fat : List Nat) (root : List DirectoryEntry) (disk : List Nat) :
    Except (String × List Nat × List DirectoryEntry) FSState :=
  match parsePath path with
  | .error e => .error (e, fat, root)
  | .ok (dirPath, fileName) =>
      match navigateToDirectory disk root dirPath with
      | .error e => .error (e, fat, root)
      | .ok (cur, pb) =>
          match findDirEntryIdx fileName 0 cur with
          | none => .error ("Arquivo não encontrado.", fat, cur)
          | some idx =>
              let entry := cur.getD idx emptyEntry
              if entry.attributes ≠ DIR_FILE then
                .error ("Arquivo não encontrado.", fat, cur)
              else
                match (if entry.first_block ≠ 0 then
                    freeFatBlocks fat entry.first_block
                  else .ok fat) with
                | .error e => .error (e, fat, cur)
                | .ok fat1 =>
                    let content := pyRepeat string rep
                    let blocksNeeded :=
                      (content.length + BLOCK_SIZE - 1) / BLOCK_SIZE
                    match allocateBlocks fat1 blocksNeeded with
                    | none => .error (oosMsg, fat1, cur)
                    | some allocated =>
                        match linkBlocks fat1 allocated with
                        | none =>
                            .error ("IndexError em allocated_blocks", fat1, cur)
                        | some fat2 =>
                            let cur' := cur.set idx
                              { entry with
                                  first_block := allocated.headD 0,
                                  size := content.length }
                            let root' := if pb.isNone then cur' else root
                            let disk1 := writeBlocks disk allocated content
                            let disk2 :=
                              match pb with
                              | some b => persistDirectory disk1 cur' b
                              | none => persistChanges disk1 fat2 root'
                            .ok ⟨fat2, root', disk2⟩

/-- Model of `write_string` (operations.py lines 212-273): path check, reload
from the backing store, then the loaded part above.  Exceptions raised
before `load_filesystem` completes carry empty lists. -/
def writeString (string : List Nat) (rep : Nat) (path : List Nat)
    (disk : List Nat) :
    Except (String × List Nat × List DirectoryEntry) FSState :=
  if path.head? ≠ some 47 then
    .error ("Caminho inválido. Deve começar com barra.", [], [])
  else
    match loadFS disk with
    | .error e => .error (e, [], [])
    | .ok (fat, root) => writeStringLoaded string rep path fat root disk

/-! ## read_file (operations.py lines 275-308) -/

/-- The chain walk of `read_file` (lines 300-305), fuel-indexed: the
source `while current_block != FAT_EOF` loop has NO hop bound and NO
visited set, so `none` (fuel exhausted at every fuel value) models
non-termination.  Each visited block contributes one full block read. -/
def readWalk (fat : List Nat) (disk : List Nat) :
    Nat → Nat → Option (Except String (List Nat))
  | 0, _ => none
  | fuel + 1, cur =>
      if cur = FAT_EOF then some (.ok [])
      else if cur < TOTAL_BLOCKS then
        match fat.get? cur with
        | none => some (.error "IndexError na FAT")
        | some next =>
            (readWalk fat disk fuel next).map
              (Except.map (diskRead disk (cur * BLOCK_SIZE) BLOCK_SIZE ++ ·))
      else some (.error "Bloco inválido na FAT")

/-- The part of `read_file` that runs after `load_filesystem` has
populated the in-memory FAT and root (lines 286-308), threading the
disk through every modelled I/O step; the source opens the backing
store read-only and performs no writes, so every branch hands the
incoming disk back.  The fuel bounds the chain walk; its exhaustion
yields the distinguished outcome "sem_combustivel" (the source would
still be looping). -/
def readFileLoaded (fat : List Nat) (root : List DirectoryEntry)
    (path : List Nat) (fuel : Nat) (disk : List Nat) :
    Except String (List Nat) × List Nat :=
  match parsePath path with
  | .error e => (.error e, disk)
  | .ok (dirPath, fileName) =>
      match navigateToDirectory disk root dirPath, disk with
      | .error e, d2 => (.error e, d2)
      | .ok (cur, _), d2 =>
          match findDirEntryIdx fileName 0 cur with
          | none => (.error "Arquivo não encontrado.", d2)
          | some idx =>
              let entry := cur.getD idx emptyEntry
              if entry.attributes ≠ DIR_FILE then
                (.error "Arquivo não encontrado.", d2)
              else
                match readWalk fat d2 fuel entry.first_block, d2 with
                | none, d3 => (.error "sem_combustivel", d3)
                | some (.error e), d3 => (.error e, d3)
                | some (.ok content), d3 =>
                    (.ok (content.take entry.size), d3)

/-- Model of `read_file` (operations.py lines 275-308): path check, reload from
the backing store, then the loaded part above. -/
def readFile (path : List Nat) (fuel : Nat) (disk : List Nat) :
    Except String (List Nat) × List Nat :=
  if path.head? ≠ some 47 then
    (.error "Caminho inválido. Deve começar com barra.", disk)
  else
    match loadFS disk, disk with
    | .error e, d1 => (.error e, d1)
    | .ok (fat, root), d1 => readFileLoaded fat root path fuel d1

/-- The chain walk never finishes, at any fuel: the embedded image of
the while loop of the source running forever. -/
def readWalkDiverges (fat disk : List Nat) (cur : Nat) : Prop :=
  ∀ fuel, readWalk fat disk fuel cur = none

/-- Statement that `read_file` runs out of fuel at every fuel value, i.e. the source
call never returns. -/
def readFileDiverges (path disk : List Nat) : Prop :=
  ∀ fuel, (readFile path fuel disk).1 = .error "sem_combustivel"

/-! ## create (operations.py lines 140-183) -/

/-- First EMPTY slot of a directory array. -/
def findEmptyIdx : Nat → List DirectoryEntry → Option Nat
  | _, [] => none
  | i, e :: rest =>
      if e.attributes = DIR_EMPTY then some i else findEmptyIdx (i + 1) rest

/-- Model of `create`.  NOTE the duplicate check (lines 156-158) compares only
the stripped filename - it does NOT require the entry to be non-EMPTY. -/
def createOp (path : List Nat) (disk : List Nat) : Except String FSState :=
  if path.head? ≠ some 47 then .error "Caminho inválido. Deve começar com barra."
  else
    let parts := splitSlash (pyStripSlash path)
    let fileName := parts.getLastD []
    let dirPath := if parts.length > 1 then 47 :: joinSlash parts.dropLast else [47]
    if fileName.length > 25 then .error "Nome do arquivo muito longo."
    else
      match loadFS disk with
      | .error e => .error e
      | .ok (fat, root) =>
          match navigateToDirectory disk root dirPath with
          | .error e => .error e
          | .ok (cur, pb) =>
              if cur.any (fun e => pyStrip e.filename == fileName) then
                .error "O arquivo já existe no diretório."
              else
                match findEmptyIdx 0 cur with
                | none => .error "Diretório cheio."
                | some idx =>
                    match findFreeBlock fat with
                    | none => .error oosMsg
                    | some fb =>
                        let fat' := fat.set fb FAT_EOF
                        let cur' := cur.set idx
                          (DirectoryEntry.make fileName DIR_FILE fb 0)
                        let root' := if pb.isNone then cur' else root
                        let disk' :=
                          match pb with
                          | some b => persistDirectory disk cur' b
                          | none => persistChanges disk fat' root'
                        .ok ⟨fat', root', disk'⟩

/-! ## mkdir (operations.py lines 90-138) -/

def mkdirOp (path : List Nat) (disk : List Nat) : Except String FSState :=
  if path.head? ≠ some 47 then .error "Caminho inválido. Deve começar com barra."
  else
    let parts := splitSlash (pyStripSlash path)
    let dirName := parts.getLastD []
    let parentPath :=
      if path.contains 47 then 47 :: joinSlash parts.dropLast else [47]
    if dirName.length > 25 then .error "Nome do diretório muito longo."
    else
      match loadFS disk with
      | .error e => .error e
      | .ok (fat, root) =>
          match navigateToDirectory disk root parentPath with
          | .error e => .error e
          | .ok (cur, pb) =>
              if cur.any (fun e =>
                  pyStrip e.filename == dirName && e.attributes == DIR_DIRECTORY) then
                .error "Diretório já existe."
              else
                match findEmptyIdx 0 cur with
                | none => .error "Diretório cheio."
                | some idx =>
                    match findFreeBlock fat with
                    | none => .error oosMsg
                    | some fb =>
                        let fat' := fat.set fb FAT_EOF
                        let cur' := cur.set idx
                          (DirectoryEntry.make dirName DIR_DIRECTORY fb 0)
                        let newDirectory := List.replicate ROOT_ENTRIES emptyEntry
                        let disk1 := persistDirectory disk newDirectory fb
                        let root' := if pb.isNone then cur' else root
                        let disk2 :=
                          match pb with
                          | some b => persistDirectory disk1 cur' b
                          | none => persistChanges disk1 fat' root'
                        .ok ⟨fat', root', disk2⟩

/-! ## unlink (operations.py lines 185-210) -/

/-- Model of `is_directory_empty`: loads the directory block and checks that
every record is EMPTY. -/
def isDirectoryEmpty (disk : List Nat) (e : DirectoryEntry) :
    Except String Bool :=
  match loadDirectory disk e.first_block with
  | .error er => .error er
  | .ok entries => .ok (entries.all (fun x => x.attributes == DIR_EMPTY))

/-- Model of `unlink`.  For a nested path the source passes the parent-path
STRING to `_load_directory`, whose `f.seek(block_number * BLOCK_SIZE)`
then receives a string (Python string repetition) and raises TypeError;
that branch is modelled as that error. -/
def unlinkOp (path : List Nat) (disk : List Nat) : Except String FSState :=
  match parsePath path with
  | .error e => .error e
  | .ok (dirPath, name) =>
      match loadFS disk with
      | .error e => .error e
      | .ok (fat, root) =>
          match (if dirPath = [47] then Except.ok root
            else Except.error "TypeError em f.seek") with
          | .error e => .error e
          | .ok directory =>
              match findDirEntryIdx name 0 directory with
              | none => .error "Arquivo ou diretório não encontrado."
              | some idx =>
                  let e := directory.getD idx emptyEntry
                  match (if e.attributes = DIR_DIRECTORY then
                      isDirectoryEmpty disk e
                    else .ok true) with
                  | .error er => .error er
                  | .ok isEmpty =>
                      if ¬ isEmpty then .error "Diretório não está vazio."
                      else
                        match (if e.first_block ≠ 0 then
                            freeFatBlocks fat e.first_block
                          else .ok fat) with
                        | .error er => .error er
                        | .ok fat' =>
                            let directory' := removeDirEntry directory name
                            let root' :=
                              if dirPath = [47] then directory' else root
                            .ok ⟨fat', root', persistChanges disk fat' root'⟩

/-! ## initialize_filesystem (operations.py lines 46-62) -/

/-- The 32 serialized empty root records written by the initializer
(1024 bytes). -/
def emptyRootBytes : List Nat :=
  ((List.replicate ROOT_ENTRIES emptyEntry).map DirectoryEntry.toBytes).flatten

/-- The byte contents of `filesystem.dat` after `initialize_filesystem`
on a fresh engine: the serialized FAT (2048 bytes - one byte per entry),
the 32 serialized empty root records (1024 bytes), then
`BLOCK_SIZE * (TOTAL_BLOCKS - FAT_BLOCKS - ROOT_BLOCKS)` zero bytes. -/
def initializeFilesystem : List Nat :=
  fatToBytes initFat
    ++ emptyRootBytes
    ++ List.replicate (BLOCK_SIZE * (TOTAL_BLOCKS - FAT_BLOCKS - ROOT_BLOCKS)) 0

/-! ## Concrete scenario data

The scenario stores are prefixes of a full backing store: all regions
the traced operations touch (the FAT bytes at offsets 0..4095 and the
root-directory block at 4096..5119) are present, reads beyond the end
return short data exactly as Python file reads do, and writes beyond
the end extend the file, so the modelled operations behave on these
prefixes exactly as on the full 2095104-byte store. -/

/-- The first 5120 bytes of the freshly initialized backing store. -/
def D0 : List Nat := initializeFilesystem.take 5120

/-- The path "/a". -/
def pathA : List Nat := [47, 97]

/-- The path "/d". -/
def pathD : List Nat := [47, 100]

/-- The path "/d/f". -/
def pathDF : List Nat := [47, 100, 47, 102]

/-- The path "/f". -/
def pathF : List Nat := [47, 102]

/-- Store after create "/a" on the fresh store. -/
def c5d1 : List Nat :=
  match createOp pathA D0 with
  | .ok st => st.disk
  | .error _ => []

/-- Store after create "/a" then unlink "/a". -/
def c5d2 : List Nat :=
  match unlinkOp pathA c5d1 with
  | .ok st => st.disk
  | .error _ => []

/-- Store after mkdir "/d" on the fresh store. -/
def c6d1 : List Nat :=
  match mkdirOp pathD D0 with
  | .ok st => st.disk
  | .error _ => []

/-- Engine state returned by create "/d/f" after mkdir "/d". -/
def c6st : FSState :=
  match createOp pathDF c6d1 with
  | .ok st => st
  | .error _ => ⟨[], [], []⟩

/-- A loadable store holding one FILE entry named "f" at block 5 with
size 0; FAT byte 5 is FREE, every other FAT byte is 1. -/
def c2disk : List Nat :=
  (List.replicate 4096 1).set 5 0
    ++ ([102] ++ List.replicate 24 32 ++ [1, 5, 0, 0, 0, 0, 0])
    ++ List.replicate 992 0

/-- Store after writing the content "a" repeated 3 times to "/f". -/
def c2diskAfter : List Nat :=
  match writeString [97] 3 pathF c2disk with
  | .ok st => st.disk
  | .error _ => []

/-- The FAT as reloaded from the written store. -/
def c2fat : List Nat :=
  match loadFS c2diskAfter with
  | .ok (f, _) => f
  | .error _ => []

/-- The root directory as reloaded from the written store. -/
def c2root : List DirectoryEntry :=
  match loadFS c2diskAfter with
  | .ok (_, r) => r
  | .error _ => []

/-- A deliberately corrupted table in which block 5 points to block 6
and block 6 points back to block 5. -/
def cycleFat : List Nat := ((List.replicate 2048 0).set 5 6).set 6 5

/-- The table free_fat_blocks returns on the corrupted cycle. -/
def c8result : List Nat :=
  match freeFatBlocks cycleFat 5 with
  | .ok r => r
  | .error _ => []

/-- An in-memory table holding one chain: entry 4 is EOF_MARK. -/
def c3fat : List Nat := (List.replicate 2048 FAT_FREE).set 4 FAT_EOF

/-- A loaded table with no FREE entry (witness data for claim C4). -/
def wFat : List Nat := [1, 1, 1, 1, 1]

/-- A loaded root holding one FILE entry named "f" with no chain
(first block 0), as such an entry decodes from a crafted store. -/
def wRoot : List DirectoryEntry :=
  DirectoryEntry.make [102] DIR_FILE 0 3 :: List.replicate 31 emptyEntry

/-! ## Supporting lemmas -/

theorem lenGT_iff (l : List Nat) (n : Nat) : lenGT l n = true ↔ n < l.length := by
  induction l generalizing n with
  | nil => simp [lenGT]
  | cons a l ih =>
      cases n with
      | zero => simp [lenGT]
      | succ n => simpa [lenGT, Nat.succ_lt_succ_iff] using ih n

theorem lenGE_iff (l : List Nat) (n : Nat) : lenGE l n = true ↔ n ≤ l.length := by
  cases n with
  | zero => simp [lenGE]
  | succ n => simpa [lenGE] using lenGT_iff l n

/-- On a table in which blocks a and b point at each other, the chain
walk never terminates (a = b gives the self-loop case). -/
theorem readWalk_two_cycle (fat disk : List Nat) (a b : Nat)
    (ha : fat.get? a = some b) (hb : fat.get? b = some a)
    (hane : a ≠ FAT_EOF) (hbne : b ≠ FAT_EOF)
    (halt : a < TOTAL_BLOCKS) (hblt : b < TOTAL_BLOCKS) :
    readWalkDiverges fat disk a := by
  have key : ∀ fuel, readWalk fat disk fuel a = none ∧ readWalk fat disk fuel b = none := by
    intro fuel
    induction fuel with
    | zero => exact ⟨rfl, rfl⟩
    | succ fuel ih =>
        constructor
        · show readWalk fat disk (fuel + 1) a = none
          unfold readWalk
          rw [if_neg hane, if_pos halt, ha]
          dsimp only
          rw [ih.2]
          rfl
        · show readWalk fat disk (fuel + 1) b = none
          unfold readWalk
          rw [if_neg hbne, if_pos hblt, hb]
          dsimp only
          rw [ih.1]
          rfl
  exact fun fuel => (key fuel).1

/-- One walk step into a diverging tail diverges. -/
theorem readWalk_step_none (fat disk : List Nat) (cur nxt : Nat)
    (hne : cur ≠ FAT_EOF) (hlt : cur < TOTAL_BLOCKS) (h : fat.get? cur = some nxt)
    (hdiv : readWalkDiverges fat disk nxt) : readWalkDiverges fat disk cur := by
  intro fuel
  cases fuel with
  | zero => rfl
  | succ fuel =>
      unfold readWalk
      rw [if_neg hne, if_pos hlt, h]
      dsimp only
      rw [hdiv fuel]
      rfl

/-- Every branch of the loaded part of read hands the disk back. -/
theorem readFileLoaded_snd (fat : List Nat) (root : List DirectoryEntry)
    (path : List Nat) (fuel : Nat) (disk : List Nat) :
    (readFileLoaded fat root path fuel disk).2 = disk := by
  unfold readFileLoaded
  split
  · rfl
  · split
    · rfl
    · split
      · rfl
      · dsimp only
        split
        · rfl
        · split
          · rfl
          · rfl
          · rfl

/-- The only error _load_directory raises is the record IndexError. -/
theorem loadDirectory_error_msg (disk : List Nat) (b : Nat) (e : String)
    (h : loadDirectory disk b = .error e) :
    e = "IndexError em DirectoryEntry.from_bytes" := by
  unfold loadDirectory at h
  dsimp only at h
  split at h
  · exact absurd h (by simp)
  · simp only [Except.error.injEq] at h
    exact h.symm

/-- The segment walk raises only not-found or the record IndexError. -/
theorem navigateSegs_error_msg (disk : List Nat) :
    ∀ (segs : List (List Nat)) (cur : List DirectoryEntry) (pb : Option Nat) (e : String),
      navigateSegs disk segs cur pb = .error e →
      e = "Diretório não encontrado." ∨ e = "IndexError em DirectoryEntry.from_bytes" := by
  intro segs
  induction segs with
  | nil =>
      intro cur pb e h
      exact absurd h (by simp [navigateSegs])
  | cons seg rest ih =>
      intro cur pb e h
      unfold navigateSegs at h
      split at h
      · simp only [Except.error.injEq] at h
        exact Or.inl h.symm
      · rename_i entry _
        cases hld : loadDirectory disk entry.first_block with
        | error er =>
            rw [hld] at h
            dsimp only at h
            simp only [Except.error.injEq] at h
            rw [← h]
            exact Or.inr (loadDirectory_error_msg disk entry.first_block er hld)
        | ok next =>
            rw [hld] at h
            dsimp only at h
            exact ih next (some entry.first_block) e h

/-- Navigation raises only not-found or the record IndexError. -/
theorem navigate_error_msg (disk : List Nat) (root : List DirectoryEntry)
    (p : List Nat) (e : String) (h : navigateToDirectory disk root p = .error e) :
    e = "Diretório não encontrado." ∨ e = "IndexError em DirectoryEntry.from_bytes" := by
  unfold navigateToDirectory at h
  split at h
  · exact absurd h (by simp)
  · exact navigateSegs_error_msg disk _ _ _ _ h

/-- parse_path raises only the invalid-path error. -/
theorem parsePath_error_msg (p : List Nat) (e : String) (h : parsePath p = .error e) :
    e = "Caminho inválido. Deve começar com barra." := by
  unfold parsePath at h
  split at h
  · simp only [Except.error.injEq] at h
    exact h.symm
  · dsimp only at h
    split at h <;> exact absurd h (by simp)

/-- Freeing writes only FREE values, so FREE entries stay FREE. -/
theorem get?_set_zero_preserved (l : List Nat) (cur i : Nat)
    (h : l.get? i = some FAT_FREE) : (l.set cur FAT_FREE).get? i = some FAT_FREE := by
  by_cases hic : i = cur
  · subst hic
    rw [List.get?_eq_getElem?] at h ⊢
    rw [List.getElem?_set_self']
    rw [h]
    rfl
  · rw [List.get?_eq_getElem?] at h ⊢
    rw [List.getElem?_set_ne (Ne.symm hic)]
    exact h

/-- The freeing loop raises only the invalid-block error. -/
theorem freeLoop_error_msg :
    ∀ (gas fat : List Nat) (cur : Nat) (e : String),
      freeLoop gas fat cur = some (.error e) → e = "Bloco inválido encontrado na FAT" := by
  intro gas
  induction gas with
  | nil =>
      intro fat cur e h
      exact absurd h (by simp [freeLoop])
  | cons g gas ih =>
      intro fat cur e h
      unfold freeLoop at h
      split at h
      · simp at h
      · split at h
        · dsimp only at h
          split at h
          · simp at h
          · exact ih _ _ _ h
        · simp only [Option.some.injEq, Except.error.injEq] at h
          exact h.symm

/-- The freeing loop never turns a FREE entry non-FREE. -/
theorem freeLoop_preserves_zero :
    ∀ (gas fat : List Nat) (cur : Nat) (r : List Nat),
      freeLoop gas fat cur = some (.ok r) →
      ∀ i, fat.get? i = some FAT_FREE → r.get? i = some FAT_FREE := by
  intro gas
  induction gas with
  | nil =>
      intro fat cur r h
      exact absurd h (by simp [freeLoop])
  | cons g gas ih =>
      intro fat cur r h i hi
      unfold freeLoop at h
      split at h
      · simp only [Option.some.injEq, Except.ok.injEq] at h
        rw [← h]
        exact hi
      · split at h
        · dsimp only at h
          split at h
          · simp only [Option.some.injEq, Except.ok.injEq] at h
            rw [← h]
            exact get?_set_zero_preserved fat cur i hi
          · exact ih _ _ _ h i (get?_set_zero_preserved fat cur i hi)
        · simp at h

/-- A successful freeing run that entered the loop leaves its starting
block FREE. -/
theorem freeLoop_ok_zero :
    ∀ (gas fat : List Nat) (cur : Nat) (r : List Nat),
      cur ≠ FAT_EOF → lenGT fat cur = true →
      freeLoop gas fat cur = some (.ok r) → r.get? cur = some FAT_FREE := by
  intro gas
  cases gas with
  | nil =>
      intro fat cur r _ _ h
      exact absurd h (by simp [freeLoop])
  | cons g gas =>
      intro fat cur r hne hlt h
      unfold freeLoop at h
      rw [if_neg hne, if_pos hlt] at h
      dsimp only at h
      have hzero : (fat.set cur FAT_FREE).get? cur = some FAT_FREE := by
        rw [List.get?_eq_getElem?, List.getElem?_set_self']
        have hlen : cur < fat.length := (lenGT_iff fat cur).mp hlt
        rw [List.getElem?_eq_getElem hlen]
        rfl
      split at h
      · simp only [Option.some.injEq, Except.ok.injEq] at h
        rw [← h]
        exact hzero
      · exact freeLoop_preserves_zero _ _ _ _ h cur hzero

/-- Freeing from the EOF mark itself frees nothing. -/
theorem freeFatBlocks_eof (fat r : List Nat)
    (h : freeFatBlocks fat FAT_EOF = .ok r) : r = fat := by
  unfold freeFatBlocks at h
  split at h
  · unfold freeLoop at h
    rw [if_pos rfl] at h
    simp only [Except.ok.injEq] at h
    exact h.symm
  · exact absurd h (by simp)

/-- A successful free of a non-EOF head leaves that block FREE. -/
theorem freeFatBlocks_ok_zero (fat : List Nat) (fb : Nat) (r : List Nat)
    (hne : fb ≠ FAT_EOF) (h : freeFatBlocks fat fb = .ok r) :
    r.get? fb = some FAT_FREE := by
  unfold freeFatBlocks at h
  split at h
  · rename_i hlt
    cases hfl : freeLoop (0 :: fat) fat fb with
    | none =>
        rw [hfl] at h
        exact absurd h (by simp)
    | some rr =>
        rw [hfl] at h
        dsimp only at h
        cases rr with
        | error e => exact Except.noConfusion h
        | ok rr' =>
            simp only [Except.ok.injEq] at h
            rw [← h]
            exact freeLoop_ok_zero (0 :: fat) fat fb rr' hne hlt hfl
  · exact absurd h (by simp)

/-- free_fat_blocks raises only its three ValueError-style messages. -/
theorem freeFatBlocks_error_msg (fat : List Nat) (fb : Nat) (e : String)
    (h : freeFatBlocks fat fb = .error e) :
    e = "Bloco inválido encontrado na FAT" ∨ e = "gás esgotado"
      ∨ e = "Bloco inicial inválido" := by
  unfold freeFatBlocks at h
  split at h
  · cases hfl : freeLoop (0 :: fat) fat fb with
    | none =>
        rw [hfl] at h
        dsimp only at h
        simp only [Except.error.injEq] at h
        exact Or.inr (Or.inl h.symm)
    | some r =>
        rw [hfl] at h
        dsimp only at h
        cases r with
        | error er =>
            simp only [Except.error.injEq] at h
            exact Or.inl (by rw [← h]; exact freeLoop_error_msg _ _ _ _ hfl)
        | ok rr => exact Except.noConfusion h
  · simp only [Except.error.injEq] at h
    exact Or.inr (Or.inr h.symm)

/-- When the scan finds nothing, no entry is FREE. -/
theorem findFreeBlockGo_none :
    ∀ (l : List Nat) (s : Nat), findFreeBlockGo s l = none →
      ∀ i, l.get? i ≠ some FAT_FREE := by
  intro l
  induction l with
  | nil =>
      intro s _ i
      simp
  | cons v rest ih =>
      intro s h i
      unfold findFreeBlockGo at h
      split at h
      · exact absurd h (by simp)
      · rename_i hv
        cases i with
        | zero =>
            intro hc
            simp only [List.get?] at hc
            injection hc with hc
            exact hv hc
        | succ i => exact ih (s + 1) h i

/-- When the scan succeeds, the allocation loop cannot fail: every
iteration queries the same unmodified table. -/
theorem allocateBlocks_ne_none (fat : List Nat) (b : Nat)
    (h : findFreeBlock fat = some b) : ∀ n, allocateBlocks fat n ≠ none := by
  intro n
  induction n with
  | zero => simp [allocateBlocks]
  | succ n ih =>
      unfold allocateBlocks
      rw [h]
      dsimp only
      cases ha : allocateBlocks fat n with
      | none => exact absurd ha ih
      | some rest => simp

/-! ## Claims -/

set_option maxRecDepth 6500 in
/-- Claim C1: the claim says an allocation needing n blocks reserves n
pairwise-distinct previously-FREE blocks linked into a chain ending in
EOF_MARK.  On the freshly initialized table (first FREE block 4), the
allocation loop of write_string returns block 4 twice for n = 2 -
find_free_block is queried repeatedly with nothing marked in between -
and the linking then collapses into the single block 4 marked EOF_MARK,
so the table records a one-block chain where a two-block chain was
requested. -/
theorem c1_allocation_duplicates_blocks :
    allocateBlocks initFat 2 = some [4, 4]
      ∧ linkBlocks initFat [4, 4] = some (initFat.set 4 FAT_EOF) := by
  constructor
  · decide
  · show linkBlocks initFat [4, 4] = _
    unfold linkBlocks
    rw [show ([4, 4] : List Nat).getLast? = some 4 from rfl]
    dsimp only
    rw [show linkPairs initFat [4, 4] = initFat.set 4 4 from rfl]
    rw [List.set_set]

set_option maxRecDepth 6500 in
/-- Claim C2: the claim says write of content times repeat count
followed by read on the same path returns exactly that content.  On a
loadable store holding the FILE "/f", writing the content "a" repeated
3 times succeeds, but the subsequent read never returns: the one-byte
FAT serialization stores EOF_MARK as byte 255, so the reloaded chain
runs 5, 255, 1, 1, 1, ... and the read walk runs out of fuel at every
fuel value (the source loops forever). -/
theorem c2_write_then_read_never_returns :
    (writeString [97] 3 pathF c2disk).isOk = true
      ∧ readFileDiverges pathF c2diskAfter := by
  refine ⟨by decide, ?_⟩
  have hload : loadFS c2diskAfter = .ok (c2fat, c2root) := by rfl
  have h5 : c2fat.get? 5 = some 255 := by decide
  have h255 : c2fat.get? 255 = some 1 := by decide
  have h1 : c2fat.get? 1 = some 1 := by decide
  have hdiv : readWalkDiverges c2fat c2diskAfter 5 :=
    readWalk_step_none _ _ 5 255 (by decide) (by decide) h5
      (readWalk_step_none _ _ 255 1 (by decide) (by decide) h255
        (readWalk_two_cycle _ _ 1 1 h1 h1 (by decide) (by decide) (by decide)
          (by decide)))
  intro fuel
  show (readFile pathF fuel c2diskAfter).1 = .error "sem_combustivel"
  unfold readFile
  rw [if_neg (by decide : ¬ (pathF.head? ≠ some 47))]
  rw [hload]
  dsimp only
  unfold readFileLoaded
  rw [show parsePath pathF = .ok ([47], [102]) from by decide]
  dsimp only
  rw [show navigateToDirectory c2diskAfter c2root [47] = .ok (c2root, none) from by
    unfold navigateToDirectory
    simp]
  dsimp only
  rw [show findDirEntryIdx [102] 0 c2root = some 0 from by decide]
  dsimp only
  rw [if_neg (by decide : ¬ ((c2root.getD 0 emptyEntry).attributes ≠ DIR_FILE))]
  rw [show (c2root.getD 0 emptyEntry).first_block = 5 from by decide]
  rw [hdiv fuel]

/-- Claim C3: the claim says serializing and deserializing the
allocation table restores byte-identical state for all four state
codes.  A table whose entry 4 holds EOF_MARK (0x7FFF) round-trips to a
table whose entry 4 holds 255: to_bytes keeps only the low byte of
each entry, so the round-trip is not the identity. -/
theorem c3_fat_roundtrip_corrupts_eof :
    fatFromBytes (fatToBytes c3fat) ≠ c3fat
      ∧ (fatFromBytes (fatToBytes c3fat)).get? 4 = some 255
      ∧ c3fat.get? 4 = some FAT_EOF := by
  refine ⟨?_, by decide, by decide⟩
  intro heq
  have h1 : (fatFromBytes (fatToBytes c3fat)).get? 4 = some 255 := by decide
  rw [heq] at h1
  have h2 : c3fat.get? 4 = some FAT_EOF := by decide
  rw [h2] at h1
  exact absurd h1 (by decide)

/-- Claim C4: when write_string on an existing file raises the
out-of-space RuntimeError, nothing has been mutated: the in-memory
table carried by the exception is exactly the loaded table (so the old
chain is intact) and the carried directory array is exactly the one
navigation returned (so the first-block and size of the entry are
unchanged).  The free-then-allocate order cannot lose the chain here,
because freeing a non-empty chain always leaves a FREE entry that
find_free_block then returns, so the failure only occurs when the
entry had no chain to begin with. -/
theorem c4_out_of_space_preserves_state
    (s : List Nat) (rep : Nat) (p : List Nat) (fat : List Nat)
    (root : List DirectoryEntry) (disk : List Nat)
    (fat1 : List Nat) (dir1 : List DirectoryEntry)
    (h : writeStringLoaded s rep p fat root disk = .error (oosMsg, fat1, dir1)) :
    fat1 = fat ∧
      ∃ dirPath fileName pb,
        parsePath p = .ok (dirPath, fileName) ∧
        navigateToDirectory disk root dirPath = .ok (dir1, pb) := by
  unfold writeStringLoaded at h
  cases hpp : parsePath p with
  | error e =>
      rw [hpp] at h
      dsimp only at h
      simp only [Except.error.injEq, Prod.mk.injEq] at h
      have he := parsePath_error_msg p e hpp
      rw [he] at h
      exact absurd h.1 (by decide)
  | ok pr =>
      obtain ⟨dirPath, fileName⟩ := pr
      rw [hpp] at h
      dsimp only at h
      cases hnav : navigateToDirectory disk root dirPath with
      | error e =>
          rw [hnav] at h
          dsimp only at h
          simp only [Except.error.injEq, Prod.mk.injEq] at h
          rcases navigate_error_msg disk root dirPath e hnav with he | he <;>
            (rw [he] at h; exact absurd h.1 (by decide))
      | ok cp =>
          obtain ⟨cur, pb⟩ := cp
          rw [hnav] at h
          dsimp only at h
          cases hfind : findDirEntryIdx fileName 0 cur with
          | none =>
              rw [hfind] at h
              dsimp only at h
              simp only [Except.error.injEq, Prod.mk.injEq] at h
              exact absurd h.1 (by decide)
          | some idx =>
              rw [hfind] at h
              dsimp only at h
              by_cases hattr : (cur.getD idx emptyEntry).attributes ≠ DIR_FILE
              · rw [if_pos hattr] at h
                simp only [Except.error.injEq, Prod.mk.injEq] at h
                exact absurd h.1 (by decide)
              · rw [if_neg hattr] at h
                by_cases hfb : (cur.getD idx emptyEntry).first_block ≠ 0
                · rw [if_pos hfb] at h
                  cases hfree : freeFatBlocks fat (cur.getD idx emptyEntry).first_block with
                  | error e =>
                      rw [hfree] at h
                      dsimp only at h
                      simp only [Except.error.injEq, Prod.mk.injEq] at h
                      rcases freeFatBlocks_error_msg fat _ e hfree with he | he | he <;>
                        (rw [he] at h; exact absurd h.1 (by decide))
                  | ok fat1' =>
                      rw [hfree] at h
                      dsimp only at h
                      by_cases hEOF : (cur.getD idx emptyEntry).first_block = FAT_EOF
                      · have hf : fat1' = fat := freeFatBlocks_eof fat fat1' (hEOF ▸ hfree)
                        cases halloc : allocateBlocks fat1'
                            (((pyRepeat s rep).length + BLOCK_SIZE - 1) / BLOCK_SIZE) with
                        | none =>
                            rw [halloc] at h
                            dsimp only at h
                            simp only [Except.error.injEq, Prod.mk.injEq, true_and] at h
                            refine ⟨by rw [← h.1, hf], dirPath, fileName, pb, rfl, ?_⟩
                            rw [hnav, h.2]
                        | some allocated =>
                            rw [halloc] at h
                            dsimp only at h
                            cases hlink : linkBlocks fat1' allocated with
                            | none =>
                                rw [hlink] at h
                                dsimp only at h
                                simp only [Except.error.injEq, Prod.mk.injEq] at h
                                exact absurd h.1 (by decide)
                            | some fat2 =>
                                rw [hlink] at h
                                dsimp only at h
                                exact Except.noConfusion h
                      · have hz : fat1'.get? (cur.getD idx emptyEntry).first_block
                            = some FAT_FREE :=
                          freeFatBlocks_ok_zero fat _ fat1' hEOF hfree
                        cases halloc : allocateBlocks fat1'
                            (((pyRepeat s rep).length + BLOCK_SIZE - 1) / BLOCK_SIZE) with
                        | none =>
                            cases hff : findFreeBlock fat1' with
                            | none => exact absurd hz (findFreeBlockGo_none fat1' 0 hff _)
                            | some b =>
                                exact absurd halloc (allocateBlocks_ne_none fat1' b hff _)
                        | some allocated =>
                            rw [halloc] at h
                            dsimp only at h
                            cases hlink : linkBlocks fat1' allocated with
                            | none =>
                                rw [hlink] at h
                                dsimp only at h
                                simp only [Except.error.injEq, Prod.mk.injEq] at h
                                exact absurd h.1 (by decide)
                            | some fat2 =>
                                rw [hlink] at h
                                dsimp only at h
                                exact Except.noConfusion h
                · rw [if_neg hfb] at h
                  dsimp only at h
                  cases halloc : allocateBlocks fat
                      (((pyRepeat s rep).length + BLOCK_SIZE - 1) / BLOCK_SIZE) with
                  | none =>
                      rw [halloc] at h
                      dsimp only at h
                      simp only [Except.error.injEq, Prod.mk.injEq, true_and] at h
                      refine ⟨h.1.symm, dirPath, fileName, pb, rfl, ?_⟩
                      rw [hnav, h.2]
                  | some allocated =>
                      rw [halloc] at h
                      dsimp only at h
                      cases hlink : linkBlocks fat allocated with
                      | none =>
                          rw [hlink] at h
                          dsimp only at h
                          simp only [Except.error.injEq, Prod.mk.injEq] at h
                          exact absurd h.1 (by decide)
                      | some fat2 =>
                          rw [hlink] at h
                          dsimp only at h
                          exact Except.noConfusion h

/-- Witness for claim C4: on a loaded state with a full table and a
FILE entry "f" with no chain, writing one byte raises the out-of-space
error carrying exactly the loaded table and directory, and the theorem
applies. -/
theorem c4_out_of_space_witness :
    writeStringLoaded [97] 1 pathF wFat wRoot [] = .error (oosMsg, wFat, wRoot)
      ∧ (wFat = wFat ∧
          ∃ dirPath fileName pb,
            parsePath pathF = .ok (dirPath, fileName) ∧
            navigateToDirectory [] wRoot dirPath = .ok (wRoot, pb)) := by
  have h : writeStringLoaded [97] 1 pathF wFat wRoot [] = .error (oosMsg, wFat, wRoot) := by
    decide
  exact ⟨h, c4_out_of_space_preserves_state [97] 1 pathF wFat wRoot [] wFat wRoot h⟩

set_option maxRecDepth 6500 in
/-- Claim C5: the claim says that after creating and unlinking a file
the name is available for reuse.  On the fresh store, create "/a"
succeeds and unlink "/a" succeeds, but the second create "/a" fails
with the already-exists error: remove_dir_entry keeps the filename in
the emptied slot and the duplicate check of create compares names
without checking the attribute, so the stale name still collides. -/
theorem c5_create_after_unlink_rejected :
    (createOp pathA D0).isOk = true
      ∧ (unlinkOp pathA c5d1).isOk = true
      ∧ createOp pathA c5d2 = .error "O arquivo já existe no diretório." := by
  exact ⟨by decide, by decide, by decide⟩

set_option maxRecDepth 6500 in
/-- Claim C6: the claim says every successful operation persists the
allocation table.  After mkdir "/d", a successful create "/d/f" (a
non-root parent) allocates block 5 in memory (entry 5 becomes
EOF_MARK) but persists only the parent directory block: the on-disk
FAT byte for block 5 still reads FREE. -/
theorem c6_subdir_create_skips_fat_persist :
    (mkdirOp pathD D0).isOk = true
      ∧ (createOp pathDF c6d1).isOk = true
      ∧ c6st.fat.getD 5 0 = FAT_EOF
      ∧ c6st.disk.getD 5 255 = FAT_FREE := by
  exact ⟨by decide, by decide, by decide, by decide⟩

set_option maxRecDepth 6500 in
/-- Claim C7: the claim says a read traversal on a table where a block
points back to an earlier block of its own chain reports CorruptChain
instead of looping.  On the table with 5 -> 6 -> 5, the chain walk of
read_file (which has no hop bound and no visited set) fails to finish
at every fuel value: the source loops forever and reports nothing. -/
theorem c7_read_walk_cycle_diverges : readWalkDiverges cycleFat [] 5 :=
  readWalk_two_cycle cycleFat [] 5 6 (by decide) (by decide) (by decide) (by decide)
    (by decide) (by decide)

set_option maxRecDepth 6500 in
/-- Claim C8: the claim says free_fat_blocks keeps a visited set and
reports a distinct CorruptChain error when a block repeats.  On the
table with 5 -> 6 -> 5 it instead returns successfully - the second
visit to block 5 reads the already-freed entry (FREE) and triggers the
silent break - leaving blocks 5 and 6 FREE and reporting nothing. -/
theorem c8_free_chain_cycle_silent :
    (freeFatBlocks cycleFat 5).isOk = true
      ∧ c8result.get? 5 = some FAT_FREE
      ∧ c8result.get? 6 = some FAT_FREE := by
  exact ⟨by decide, by decide, by decide⟩

set_option maxRecDepth 6500 in
/-- Claim C9: the claim says the initialized backing store has exactly
TOTAL_BLOCKS * BLOCK_SIZE = 2097152 bytes with the root records at
byte offset FAT_BLOCKS * BLOCK_SIZE = 4096.  The initializer actually
produces 2048 + 1024 + 2092032 = 2095104 bytes - the serialized FAT is
one byte per entry, 2048 bytes instead of the reserved 4096 - and the
32 root records start at byte 2048. -/
theorem c9_initialize_layout_short :
    initializeFilesystem.length = 2095104
      ∧ TOTAL_BLOCKS * BLOCK_SIZE = 2097152
      ∧ initializeFilesystem.length ≠ TOTAL_BLOCKS * BLOCK_SIZE
      ∧ (fatToBytes initFat).length = 2048
      ∧ FAT_BLOCKS * BLOCK_SIZE = 4096
      ∧ (initializeFilesystem.drop 2048).take 1024 = emptyRootBytes := by
  have hfat : (fatToBytes initFat).length = 2048 := by
    unfold fatToBytes initFat
    simp only [List.length_map, List.length_set, List.length_replicate]
  have hroot : emptyRootBytes.length = 1024 := by decide
  have hlen : initializeFilesystem.length = 2095104 := by
    unfold initializeFilesystem
    rw [List.length_append, List.length_append, hfat, hroot, List.length_replicate]
    decide
  have hslice : (initializeFilesystem.drop 2048).take 1024 = emptyRootBytes := by
    unfold initializeFilesystem
    rw [List.append_assoc, ← hfat, List.drop_left]
    rw [show (1024 : Nat) = emptyRootBytes.length from hroot.symm]
    rw [List.take_left]
  exact ⟨hlen, by decide, by rw [hlen]; decide, hfat, by decide, hslice⟩

/-- Claim C10: read_file never writes to the backing store: with the
disk threaded through every modelled I/O step, every outcome of
read_file - success, any error, or running out of fuel - returns the
disk exactly as it was. -/
theorem c10_read_leaves_disk_unchanged :
    ∀ (path : List Nat) (fuel : Nat) (disk : List Nat),
      (readFile path fuel disk).2 = disk := by
  intro path fuel disk
  unfold readFile
  split
  · rfl
  · split
    · rfl
    · exact readFileLoaded_snd _ _ _ _ _

end FatFs
